import Mathlib

/-!
Verification of the token-benchmark backend's inference core.

The Python source is shallowly embedded: Python floats are modelled as
rationals, Python ints as integers, `str` as `String` (or `List Char`
where character-level reasoning is needed), exceptions as `Except` /
`Option` outcomes supplied by an environment, and wall-clock time as an
environment-supplied elapsed value.  Network calls are abstracted as
environment fields holding the outcome the HTTP layer would deliver.
-/

namespace Tokens

/-- Python `round(q)`: round half to even (banker's rounding). -/
def pyRound (q : ℚ) : ℤ :=
  if q - ⌊q⌋ < 1/2 then ⌊q⌋
  else if q - ⌊q⌋ > 1/2 then ⌊q⌋ + 1
  else if ⌊q⌋ % 2 = 0 then ⌊q⌋ else ⌊q⌋ + 1

/-- Python `round(q, 1)`: round to one decimal digit, ties to even. -/
def pyRound1 (q : ℚ) : ℚ :=
  (pyRound (q * 10) : ℚ) / 10

/-- `app/models/schemas.py` `TokenUsage`: pydantic model, every token field
defaults to 0; there is no validator deriving `total_tokens`.  The optional
detail maps are irrelevant to the verified claims and omitted. -/
structure TokenUsage where
  input_tokens : ℤ := 0
  output_tokens : ℤ := 0
  total_tokens : ℤ := 0
deriving DecidableEq, Repr

instance : Inhabited TokenUsage := ⟨{}⟩

/-- `app/models/schemas.py` `InferenceResult`. -/
structure InferenceResult where
  model_id : String
  display_name : String := ""
  server_name : String := ""
  response_text : String := ""
  usage : TokenUsage := {}
  latency_ms : ℚ := 0
  error : Option String := none
  api_used : String := ""
deriving DecidableEq, Repr

/-- `app/models/schemas.py` `BenchmarkTestResult`. -/
structure BenchmarkTestResult where
  prompt : String
  response_text : String := ""
  usage : TokenUsage := {}
  latency_ms : ℚ := 0
  api_used : String := ""
  error : Option String := none
  quality_score : Option ℚ := none
  quality_reasoning : String := ""
deriving DecidableEq, Repr

instance : Inhabited BenchmarkTestResult := ⟨{ prompt := "" }⟩

/-- Mean of a list of rationals (`sum(l)/len(l)`); 0 on the empty list. -/
def listMean (l : List ℚ) : ℚ := l.sum / l.length

/-- Python `dict.get(k, d)` on an integer-valued JSON object. -/
def dict_get_int (fs : List (String × ℤ)) (k : String) (d : ℤ) : ℤ :=
  (fs.lookup k).getD d

/-- `LlamaStackConnector._call_chat_completions_api`, lines 308-317: build the
usage out of the wire `usage` object.  The argument is `data.get("usage")`:
`none` when the key is absent, `some fs` for a JSON object with integer
fields.  The code guards with `if usage_raw:`, so an empty object (falsy in
Python) also yields no usage; a present object is read with
`.get(key, 0)` defaults. -/
def chat_completions_usage (usage_raw : Option (List (String × ℤ))) : Option TokenUsage :=
  match usage_raw with
  | none => none
  | some fs =>
      if fs = [] then none
      else some { input_tokens := dict_get_int fs "prompt_tokens" 0,
                  output_tokens := dict_get_int fs "completion_tokens" 0,
                  total_tokens := dict_get_int fs "total_tokens" 0 }

/-- Environment for `LlamaStackConnector.run_inference`: the outcome the two
helper calls would deliver (`.error e` models a raised exception with message
`e`, `.ok (text, usage)` a normal return; the helpers' third component is the
constant dialect name and is kept in the embedding itself), plus the
wall-clock milliseconds elapsed at result construction. -/
structure LlamaRunEnv where
  primary : Except String (String × Option TokenUsage)
  fallback : Except String (String × Option TokenUsage)
  elapsed : ℚ

/-- The fallback condition of `run_inference` line 109:
`usage is None or usage.total_tokens == 0`. -/
def needs_fallback (usage : Option TokenUsage) : Bool :=
  usage.isNone || usage.any (fun u => u.total_tokens == 0)

/-- `LlamaStackConnector.run_inference`, lines 93-133.  The outer
`try/except` converts any raised exception into an error result; the
fallback call is attempted only when the primary call returned normally
with missing/zero usage.  `usage or TokenUsage()` is `Option.getD` with the
all-zero default. -/
def llama_run_inference (env : LlamaRunEnv) (model_id : String) : InferenceResult :=
  match env.primary with
  | .error e =>
      { model_id := model_id, display_name := model_id,
        error := some e, latency_ms := pyRound1 env.elapsed }
  | .ok (text, usage) =>
      if needs_fallback usage then
        match env.fallback with
        | .error e =>
            { model_id := model_id, display_name := model_id,
              error := some e, latency_ms := pyRound1 env.elapsed }
        | .ok (text2, usage2) =>
            { model_id := model_id, display_name := model_id,
              response_text := text2, usage := usage2.getD {},
              latency_ms := pyRound1 env.elapsed, api_used := "chat_completions" }
      else
        { model_id := model_id, display_name := model_id,
          response_text := text, usage := usage.getD {},
          latency_ms := pyRound1 env.elapsed, api_used := "responses" }

/-- Environment for `OpenAICompatConnector.run_inference`: the outcome of the
single Chat-Completions call.  On success it carries the extracted text and
the wire `usage` object (`data.get("usage", {})`, so an absent key is the
empty object), plus the elapsed wall-clock milliseconds. -/
structure OpenAIRunEnv where
  call : Except String (String × List (String × ℤ))
  elapsed : ℚ

/-- `OpenAICompatConnector.run_inference`, lines 58-116: single dialect, no
fallback; the usage is built unconditionally with `.get(key, 0)` defaults;
any exception becomes an error result with the elapsed latency. -/
def openai_run_inference (env : OpenAIRunEnv) (model_id : String) : InferenceResult :=
  match env.call with
  | .error e =>
      { model_id := model_id, display_name := model_id,
        error := some e, latency_ms := pyRound1 env.elapsed }
  | .ok (text, usage_raw) =>
      { model_id := model_id, display_name := model_id,
        response_text := text,
        usage := { input_tokens := dict_get_int usage_raw "prompt_tokens" 0,
                   output_tokens := dict_get_int usage_raw "completion_tokens" 0,
                   total_tokens := dict_get_int usage_raw "total_tokens" 0 },
        latency_ms := pyRound1 env.elapsed, api_used := "chat_completions" }

/-! ### Streaming state machine (`LlamaStackConnector.stream_inference`) -/

/-- One parsed SSE event as seen by the `stream_inference` loop, with the
dialect extractors already applied: `done` is the `__done__` sentinel check,
`delta` the extracted text delta (`""` covers both `None` and the falsy
empty string, which the loop skips identically), `usage` the extracted usage
object (`none` covers both `None` and a falsy empty dict).  The usage payload
type is abstract. -/
structure SEvent (U : Type) where
  done : Bool := false
  delta : String := ""
  usage : Option U := none
deriving DecidableEq

/-- One streaming HTTP attempt as the loop observes it: the events delivered,
then `err = some msg` if an exception interrupted the attempt after those
events (connection failure or non-2xx before any event is `evs = []`),
`err = none` if the stream drained or reached the sentinel. -/
structure Attempt (U : Type) where
  evs : List (SEvent U)
  err : Option String := none
deriving DecidableEq

/-- Events yielded by `stream_inference` (`StreamEvent` union in the spec). -/
inductive OutEvent (U : Type) where
  | textDelta (delta : String)
  | error (msg : String) (latency : ℚ)
  | complete (text : String) (usage : Option U) (latency : ℚ) (api : String)
deriving DecidableEq

/-- The `async for event in parse_sse_lines(...)` body, lines 170-179 and
205-214: stop at the sentinel, yield non-empty deltas while accumulating the
full text, remember the last truthy usage.  Returns (yielded events,
accumulated text, usage_found). -/
def stream_loop {U : Type} : List (SEvent U) → List (OutEvent U) × String × Option U
  | [] => ([], "", none)
  | e :: rest =>
    if e.done then ([], "", none)
    else
      let r := stream_loop rest
      ((if e.delta ≠ "" then [OutEvent.textDelta e.delta] else []) ++ r.1,
       (if e.delta ≠ "" then e.delta else "") ++ r.2.1,
       match r.2.2 with
       | some u => some u
       | none => e.usage)

/-- `LlamaStackConnector.stream_inference`, lines 135-227: run the primary
Responses stream; an exception there yields a terminal error event and
returns.  Otherwise, only if no usage was found, run the Chat-Completions
fallback stream with the text accumulator restarted from empty; an exception
there yields a terminal error event.  Otherwise one terminal complete event
is yielded whose `api_used` is `"responses" if usage_found else
"chat_completions"` (line 226). -/
def llama_stream_inference {U : Type} (primary fallback : Attempt U) (elapsed : ℚ) :
    List (OutEvent U) :=
  let p := stream_loop primary.evs
  match primary.err with
  | some msg => p.1 ++ [OutEvent.error msg (pyRound1 elapsed)]
  | none =>
    match p.2.2 with
    | some u =>
        p.1 ++ [OutEvent.complete p.2.1 (some u) (pyRound1 elapsed) "responses"]
    | none =>
        let f := stream_loop fallback.evs
        match fallback.err with
        | some msg => p.1 ++ f.1 ++ [OutEvent.error msg (pyRound1 elapsed)]
        | none =>
            p.1 ++ f.1 ++
              [OutEvent.complete f.2.1 f.2.2 (pyRound1 elapsed)
                (if f.2.2.isSome then "responses" else "chat_completions")]

/-- Whether `stream_inference` enters the fallback attempt (reaches line
186): the primary attempt completed without exception and without any usage
event. -/
def llama_stream_fell_back {U : Type} (primary : Attempt U) : Bool :=
  primary.err.isNone && (stream_loop primary.evs).2.2.isNone

/-! ### SSE decoder (`app/services/stream_handler.py`) -/

/-- Python `str.strip()`: drop whitespace from both ends.  Lines are
modelled as `List Char` so that prefix/suffix structure is provable. -/
def pyStrip (s : List Char) : List Char :=
  ((s.dropWhile Char.isWhitespace).reverse.dropWhile Char.isWhitespace).reverse

/-- Python `str.startswith(pre)`. -/
def startswith (pre s : List Char) : Bool :=
  s.take pre.length == pre

/-- The literal `"data: "`. -/
def sseData : List Char := "data: ".toList

/-- The literal `"[DONE]"`. -/
def sseDone : List Char := "[DONE]".toList

/-- Output of the SSE decoder: the terminal sentinel, or a parsed payload. -/
inductive SseOut (J : Type) where
  | done
  | event (j : J)
deriving DecidableEq

/-- `parse_sse_lines`, `stream_handler.py` lines 8-23.  Each line is
stripped; empty and comment (`:`-initial) lines are skipped; a
`data: [DONE]` line emits the sentinel and stops consuming input (the
Python generator `return`s); any other `data: ` payload is JSON-parsed —
the parser is abstracted as `parse`, with `none` standing for a raised
`JSONDecodeError`, on which the line is skipped; lines matching no rule
fall off the loop body and are skipped. -/
def parse_sse_lines {J : Type} (parse : List Char → Option J) :
    List (List Char) → List (SseOut J)
  | [] => []
  | line :: rest =>
    let l := pyStrip line
    if l.isEmpty || startswith [':'] l then parse_sse_lines parse rest
    else if startswith sseData l then
      let ds := l.drop 6
      if ds == sseDone then [SseOut.done]
      else
        match parse ds with
        | some j => SseOut.event j :: parse_sse_lines parse rest
        | none => parse_sse_lines parse rest
    else parse_sse_lines parse rest

/-! ### Benchmark orchestrator (`app/services/benchmark.py`) -/

/-- The filter `[r for r in results if r.error is None]` used at
`benchmark.py` lines 75 and 155. -/
def successful_results (results : List BenchmarkTestResult) : List BenchmarkTestResult :=
  results.filter (fun r => r.error.isNone)

/-- The last element of the successful-run list, as the spec phrases it:
the last repeat (in run order) whose `error` is `None`. -/
def last_successful (runs : List BenchmarkTestResult) : Option BenchmarkTestResult :=
  runs.reverse.find? (fun r => r.error.isNone)

/-- `_run_single_prompt_multi`, `benchmark.py` lines 56-94, given the list
of per-repeat results that the sequential `run_single_prompt` calls
produced (`runs`, of length `num_runs`; for `num_runs <= 1` the single
sampled result).  Averages use Python `round` (half to even) for tokens and
`round(_, 1)` for latency; `successful[-1]` is `getLastD`. -/
def run_single_prompt_multi (num_runs : ℕ) (prompt : String)
    (runs : List BenchmarkTestResult) : BenchmarkTestResult :=
  if num_runs ≤ 1 then runs.headI
  else
    let successful := successful_results runs
    if successful = [] then runs.headI
    else
      let n : ℚ := successful.length
      let avg_input := (successful.map (fun r => (r.usage.input_tokens : ℚ))).sum / n
      let avg_output := (successful.map (fun r => (r.usage.output_tokens : ℚ))).sum / n
      let avg_total := (successful.map (fun r => (r.usage.total_tokens : ℚ))).sum / n
      let avg_latency := (successful.map (fun r => r.latency_ms)).sum / n
      { prompt := prompt
        response_text := (successful.getLastD default).response_text
        usage := { input_tokens := pyRound avg_input
                   output_tokens := pyRound avg_output
                   total_tokens := pyRound avg_total }
        latency_ms := pyRound1 avg_latency
        api_used := (successful.getLastD default).api_used }

/-- `run_benchmark` line 159: `total_latency = sum(r.latency_ms for r in
results)` — summed over ALL results, errored ones included. -/
def run_benchmark_total_latency (results : List BenchmarkTestResult) : ℚ :=
  (results.map (fun r => r.latency_ms)).sum

/-- `run_benchmark` line 160: `avg_latency = total_latency /
len(successful) if successful else 0`. -/
def run_benchmark_avg_latency (results : List BenchmarkTestResult) : ℚ :=
  if (successful_results results).length ≠ 0 then
    run_benchmark_total_latency results / (successful_results results).length
  else 0

/-- `run_benchmark` line 187: `avg_latency_ms=round(avg_latency, 1)`. -/
def run_benchmark_avg_latency_ms (results : List BenchmarkTestResult) : ℚ :=
  pyRound1 (run_benchmark_avg_latency results)

/-! ### Quality scorer (`app/services/quality_scorer.py`) -/

/-- Environment for `score_response`: the judge selection inputs
(`server_url`/`model` arguments and the `config.optimizer` values they fall
back to), the outcome of the HTTP judge call with the `output_text` pieces
already concatenated (`.error` models any exception inside the `try`), and
the outcome of `_extract_json` on that text.  The extraction outcome is
`none` when `_extract_json` returned a falsy value, otherwise
`some (scoreField, reasoning)` where `scoreField` is `none` when the object
has no `"score"` key, `some none` when `float(result["score"])` raises
(caught by the outer `except`), and `some (some q)` when it converts to the
number `q`; `reasoning` is `result.get("reasoning", "")`. -/
structure ScoreEnv where
  server_url : String
  model : String
  cfg_server_url : String
  cfg_model : String
  call : Except String String
  extract : Option (Option (Option ℚ) × String)

/-- `judge_server = server_url or config.optimizer.server_url` (Python `or`
on strings: the left operand unless it is falsy/empty). -/
def judge_server (env : ScoreEnv) : String :=
  if env.server_url ≠ "" then env.server_url else env.cfg_server_url

/-- `judge_model = model or config.optimizer.model`. -/
def judge_model (env : ScoreEnv) : String :=
  if env.model ≠ "" then env.model else env.cfg_model

/-- `score_response`, `quality_scorer.py` lines 40-109. -/
def score_response (env : ScoreEnv) : Option ℚ × String :=
  if judge_server env = "" ∨ judge_model env = "" then (none, "")
  else
    match env.call with
    | .error _ => (none, "")
    | .ok text =>
      if text = "" then (none, "")
      else
        match env.extract with
        | none => (none, "")
        | some (score_field, reasoning) =>
          match score_field with
          | none => (none, "")
          | some none => (none, "")
          | some (some s) => (some (max 1 (min 10 s)), reasoning)

/-! ### Helper lemmas -/

/-- The `data: ` marker, character by character. -/
theorem sseData_eq : sseData = ['d', 'a', 't', 'a', ':', ' '] := rfl

/-- Dropping the 6-character `data: ` marker recovers the payload. -/
theorem sse_drop6 (q : List Char) : (sseData ++ q).drop 6 = q :=
  List.drop_left' (by simp [sseData_eq])

/-- Half-to-even rounding lands on a nearest integer. -/
theorem pyRound_nearest (q : ℚ) : |(pyRound q : ℚ) - q| ≤ 1/2 := by
  have h1 : ((⌊q⌋ : ℤ) : ℚ) ≤ q := Int.floor_le q
  have h2 : q < (⌊q⌋ : ℚ) + 1 := Int.lt_floor_add_one q
  rw [abs_le]
  unfold pyRound
  split_ifs with ha hb hc <;> push_cast <;> constructor <;> linarith

/-- One-decimal half-to-even rounding lands within `1/20`. -/
theorem pyRound1_nearest (q : ℚ) : |pyRound1 q - q| ≤ 1/20 := by
  have h := pyRound_nearest (q * 10)
  rw [abs_le] at h ⊢
  unfold pyRound1
  constructor <;> [linarith [h.1]; linarith [h.2]]

/-- `find?` returns the head of the filtered list. -/
theorem find?_eq_head?_filter {α : Type} (p : α → Bool) (l : List α) :
    l.find? p = (l.filter p).head? := by
  induction l with
  | nil => rfl
  | cons a t ih =>
    by_cases h : p a = true
    · rw [List.find?_cons_of_pos _ h, List.filter_cons_of_pos h, List.head?_cons]
    · rw [List.find?_cons_of_neg _ h, List.filter_cons_of_neg h, ih]

/-- Searching the reversed list finds the last filtered element. -/
theorem reverse_find?_eq_filter_getLast? {α : Type} (p : α → Bool) (l : List α) :
    l.reverse.find? p = (l.filter p).getLast? := by
  rw [find?_eq_head?_filter, List.filter_reverse, List.head?_reverse]

/-- The spec-side last successful repeat is the last element of the
code-side successful-run filter. -/
theorem last_successful_eq (runs : List BenchmarkTestResult) :
    last_successful runs = (successful_results runs).getLast? :=
  reverse_find?_eq_filter_getLast? _ runs

/-- `getLastD` through `getLast?`. -/
theorem getLastD_eq_getLast?_getD {α : Type} (l : List α) (d : α) :
    l.getLastD d = l.getLast?.getD d := by
  cases l <;> simp [List.getLastD_eq_getLast?]

/-- `headI` of a nonempty list is its head. -/
theorem headI_eq_head {α : Type} [Inhabited α] (l : List α) (h : l ≠ []) :
    l.headI = l.head h := by
  cases l with
  | nil => exact absurd rfl h
  | cons a t => rfl

/-! ### Claim theorems -/

/-- Claim C3 (code_bug evidence): with one error-free result of latency 10
and one errored result of latency 20, `run_benchmark` reports
`avg_latency_ms = 30.0`, while the mean of latency over the error-free
results only is `10.0` — the errored latency is summed into the numerator
while the denominator counts only error-free results. -/
theorem c3_avg_latency_counts_errored_results :
    run_benchmark_avg_latency_ms
        [{ prompt := "a", latency_ms := 10 },
         { prompt := "b", latency_ms := 20, error := some "x" }] = 30 ∧
    listMean ((successful_results
        [{ prompt := "a", latency_ms := 10 },
         { prompt := "b", latency_ms := 20, error := some "x" }]).map
        (fun r => r.latency_ms)) = 10 ∧
    (30 : ℚ) ≠ 10 := by
  refine ⟨?_, ?_, by norm_num⟩
  · norm_num [run_benchmark_avg_latency_ms, run_benchmark_avg_latency,
      run_benchmark_total_latency, successful_results, pyRound1, pyRound]
  · norm_num [listMean, successful_results]

/-- Claim C4 (code_bug evidence): when the primary Responses stream drains
without usage and the fallback Chat-Completions stream supplies both the
text and the usage, the terminal complete event still carries
`api_used = "responses"` (line 226 tests only the truthiness of
`usage_found`), although the dialect that supplied the usable results is
`"chat_completions"`. -/
theorem c4_api_used_mislabels_fallback_dialect :
    llama_stream_inference (⟨[], none⟩ : Attempt Unit)
        ⟨[{ delta := "hi", usage := some () }], none⟩ 0 =
      [OutEvent.textDelta "hi", OutEvent.complete "hi" (some ()) 0 "responses"] ∧
    "responses" ≠ "chat_completions" := by
  constructor
  · have hne : ("hi" : String) ≠ "" := by decide
    simp only [llama_stream_inference, stream_loop]
    norm_num [hne, pyRound1, pyRound]
  · decide

/-- Claim C5 (counterexample): a Chat-Completions wire usage object that
omits `total_tokens` produces `TokenUsage(input=3, output=4, total=0)`:
`total_tokens` is not derived as `input + output = 7`. -/
theorem c5_counterexample :
    chat_completions_usage (some [("prompt_tokens", 3), ("completion_tokens", 4)]) =
      some { input_tokens := 3, output_tokens := 4, total_tokens := 0 } ∧
    (0 : ℤ) ≠ 3 + 4 := by
  constructor
  · simp [chat_completions_usage, dict_get_int, List.lookup]
  · decide

/-- Claim C5 (amended): when the wire usage object omits the
`total_tokens` key, the constructed `TokenUsage` has `total_tokens = 0`
(the schema default picked by `.get("total_tokens", 0)`), not
`input + output`. -/
theorem c5_total_tokens_defaults_to_zero (fs : List (String × ℤ))
    (h : fs.lookup "total_tokens" = none) :
    ∀ u, chat_completions_usage (some fs) = some u → u.total_tokens = 0 := by
  intro u hu
  rcases eq_or_ne fs [] with rfl | he
  · simp [chat_completions_usage] at hu
  · rw [show chat_completions_usage (some fs) =
        some { input_tokens := dict_get_int fs "prompt_tokens" 0,
               output_tokens := dict_get_int fs "completion_tokens" 0,
               total_tokens := dict_get_int fs "total_tokens" 0 } by
      simp [chat_completions_usage, he]] at hu
    rw [← Option.some_inj.mp hu]
    simp [dict_get_int, h]

/-- Claim C5 witness: the amended theorem applied to the concrete wire
object `{"prompt_tokens": 3, "completion_tokens": 4}`. -/
theorem c5_witness :
    ({ input_tokens := 3, output_tokens := 4, total_tokens := 0 } : TokenUsage).total_tokens = 0 :=
  c5_total_tokens_defaults_to_zero [("prompt_tokens", 3), ("completion_tokens", 4)]
    (by simp [List.lookup]) { input_tokens := 3, output_tokens := 4, total_tokens := 0 }
    (by simp [chat_completions_usage, dict_get_int, List.lookup])

/-- Claim C1 (counterexample): when the primary Responses call throws
(`boom`), `run_inference` does NOT retry against the Chat-Completions
endpoint even though that call would succeed — the exception reaches the
outer handler, which returns an error result with empty `response_text`
and empty `api_used`. -/
theorem c1_counterexample :
    (llama_run_inference ⟨.error "boom", .ok ("hi", some ⟨1, 2, 3⟩), 5⟩ "m").error = some "boom" ∧
    (llama_run_inference ⟨.error "boom", .ok ("hi", some ⟨1, 2, 3⟩), 5⟩ "m").api_used ≠
      "chat_completions" ∧
    (llama_run_inference ⟨.error "boom", .ok ("hi", some ⟨1, 2, 3⟩), 5⟩ "m").response_text = "" := by
  refine ⟨by simp [llama_run_inference], ?_, by simp [llama_run_inference]⟩
  simp only [llama_run_inference]
  decide

/-- Claim C1 (amended): the single fallback retry against Chat-Completions
happens only when the primary Responses call RETURNS with usage missing or
`total_tokens == 0`, and then the result adopts the fallback's text, usage
and `api_used` wholesale; when the primary call throws, no fallback is
attempted (the result is the same for every fallback outcome) and an error
result is returned. -/
theorem c1_fallback_only_on_bad_usage (env : LlamaRunEnv) (m : String) :
    (∀ text usage, env.primary = .ok (text, usage) → needs_fallback usage = true →
      ∀ text2 usage2, env.fallback = .ok (text2, usage2) →
        llama_run_inference env m =
          { model_id := m, display_name := m, response_text := text2,
            usage := usage2.getD {}, latency_ms := pyRound1 env.elapsed,
            api_used := "chat_completions" }) ∧
    (∀ e, env.primary = .error e →
      (∀ fb, llama_run_inference ⟨env.primary, fb, env.elapsed⟩ m = llama_run_inference env m) ∧
      (llama_run_inference env m).error = some e ∧
      (llama_run_inference env m).api_used = "") := by
  obtain ⟨p, f, el⟩ := env
  constructor
  · rintro text usage hp hn text2 usage2 hf
    simp only at hp hf
    subst hp hf
    simp [llama_run_inference, hn]
  · rintro e hp
    simp only at hp
    subst hp
    exact ⟨fun fb => rfl, by simp [llama_run_inference], by simp [llama_run_inference]⟩

/-- Claim C1 witness: primary returns zero-total usage, fallback succeeds;
the result is the fallback's wholesale. -/
theorem c1_witness :
    llama_run_inference ⟨.ok ("t", some ⟨1, 2, 0⟩), .ok ("hi", some ⟨3, 4, 7⟩), 5⟩ "m" =
      { model_id := "m", display_name := "m", response_text := "hi",
        usage := ⟨3, 4, 7⟩, latency_ms := pyRound1 5, api_used := "chat_completions" } := by
  have h := (c1_fallback_only_on_bad_usage
      ⟨.ok ("t", some ⟨1, 2, 0⟩), .ok ("hi", some ⟨3, 4, 7⟩), 5⟩ "m").1
      "t" (some ⟨1, 2, 0⟩) rfl (by decide) "hi" (some ⟨3, 4, 7⟩) rfl
  simpa using h

/-- Claim C7: both connectors' `run_inference` embeddings are total
functions (no exception crosses the boundary), the recorded latency is
always the rounded elapsed wall-clock time, and every exceptional outcome
(primary call raising; fallback call raising after a bad-usage primary;
the OpenAI-compatible single call raising) is converted into a result with
`error` set to the exception message. -/
theorem c7_run_inference_never_raises (envL : LlamaRunEnv) (envO : OpenAIRunEnv)
    (m1 m2 : String) :
    (llama_run_inference envL m1).latency_ms = pyRound1 envL.elapsed ∧
    (∀ e, envL.primary = .error e → (llama_run_inference envL m1).error = some e) ∧
    (∀ text usage e, envL.primary = .ok (text, usage) → needs_fallback usage = true →
      envL.fallback = .error e → (llama_run_inference envL m1).error = some e) ∧
    (openai_run_inference envO m2).latency_ms = pyRound1 envO.elapsed ∧
    (∀ e, envO.call = .error e → (openai_run_inference envO m2).error = some e) := by
  obtain ⟨p, f, el⟩ := envL
  obtain ⟨c, el2⟩ := envO
  refine ⟨?_, ?_, ?_, ?_, ?_⟩
  · cases p with
    | error e => simp [llama_run_inference]
    | ok v =>
      obtain ⟨text, usage⟩ := v
      by_cases hn : needs_fallback usage = true
      · cases f with
        | error e => simp [llama_run_inference, hn]
        | ok v2 =>
          obtain ⟨t2, u2⟩ := v2
          simp [llama_run_inference, hn]
      · simp [llama_run_inference, hn]
  · rintro e hp
    simp only at hp
    subst hp
    simp [llama_run_inference]
  · rintro text usage e hp hn hf
    simp only at hp hf
    subst hp hf
    simp [llama_run_inference, hn]
  · cases c with
    | error e => simp [openai_run_inference]
    | ok v =>
      obtain ⟨text, uraw⟩ := v
      simp [openai_run_inference]
  · rintro e hc
    simp only at hc
    subst hc
    simp [openai_run_inference]

/-- Claim C7 witness: a throwing primary call on the stack connector and a
throwing call on the OpenAI-compatible connector both surface as error
results carrying the elapsed latency. -/
theorem c7_witness :
    (llama_run_inference ⟨.error "down", .error "down2", 7⟩ "m").latency_ms = pyRound1 7 ∧
    (llama_run_inference ⟨.error "down", .error "down2", 7⟩ "m").error = some "down" ∧
    (openai_run_inference ⟨.error "refused", 9⟩ "m").error = some "refused" := by
  have h := c7_run_inference_never_raises ⟨.error "down", .error "down2", 7⟩ ⟨.error "refused", 9⟩ "m" "m"
  exact ⟨h.1, h.2.1 "down" rfl, h.2.2.2.2 "refused" rfl⟩

/-- Claim C9: the Quality Scorer returns either a null score paired with an
empty reasoning string, or a score clamped into `[1, 10]`; any failure —
missing judge configuration, a raised network/HTTP/parse exception, empty
extracted text, or `_extract_json` failure — yields `(null, "")`; a judge
report of 15 is stored as 10 and one of -3 as 1. -/
theorem c9_quality_score_clamped (env : ScoreEnv) :
    ((score_response env).1 = none → (score_response env).2 = "") ∧
    (∀ q, (score_response env).1 = some q → 1 ≤ q ∧ q ≤ 10) ∧
    (∀ e, env.call = .error e → score_response env = (none, "")) ∧
    (env.extract = none → score_response env = (none, "")) ∧
    (judge_server env = "" → score_response env = (none, "")) ∧
    score_response ⟨"s", "m", "", "", .ok "t", some (some (some 15), "r")⟩ = (some 10, "r") ∧
    score_response ⟨"s", "m", "", "", .ok "t", some (some (some (-3)), "r")⟩ = (some 1, "r") := by
  have shape : score_response env = (none, "") ∨
      ∃ s r, score_response env = (some (max 1 (min 10 s)), r) := by
    unfold score_response
    split_ifs with h
    · exact Or.inl rfl
    · cases env.call with
      | error e => exact Or.inl rfl
      | ok text =>
        dsimp only
        split_ifs with ht
        · exact Or.inl rfl
        · rcases hex : env.extract with _ | ⟨sf, r⟩
          · exact Or.inl rfl
          · rcases sf with _ | sv
            · exact Or.inl rfl
            · rcases sv with _ | s
              · exact Or.inl rfl
              · exact Or.inr ⟨s, r, rfl⟩
  refine ⟨?_, ?_, ?_, ?_, ?_, ?_, ?_⟩
  · intro hnone
    rcases shape with h | ⟨s, r, h⟩
    · rw [h]
    · rw [h] at hnone
      simp at hnone
  · intro q hq
    rcases shape with h | ⟨s, r, h⟩
    · rw [h] at hq
      simp at hq
    · rw [h] at hq
      simp only [Option.some_inj] at hq
      subst hq
      exact ⟨le_max_left 1 _, max_le (by norm_num) (min_le_left 10 s)⟩
  · intro e hc
    by_cases hj : judge_server env = "" ∨ judge_model env = ""
    · simp [score_response, hj]
    · simp [score_response, hj, hc]
  · intro hex
    by_cases hj : judge_server env = "" ∨ judge_model env = ""
    · simp [score_response, hj]
    · cases hc : env.call with
      | error e => simp [score_response, hj, hc]
      | ok text =>
        by_cases ht : text = "" <;> simp [score_response, hj, hc, ht, hex]
  · intro hjs
    simp [score_response, hjs]
  · norm_num [score_response, judge_server, judge_model]
    rw [if_neg (by decide : ¬(("s" : String) = "" ∨ ("m" : String) = "")),
      if_neg (by decide : ¬("t" : String) = "")]
  · norm_num [score_response, judge_server, judge_model]
    rw [if_neg (by decide : ¬(("s" : String) = "" ∨ ("m" : String) = "")),
      if_neg (by decide : ¬("t" : String) = "")]

/-- Claim C9 witness: a concrete judge report of 15 is stored as 10, which
lies in the clamp interval. -/
theorem c9_witness :
    (score_response ⟨"s", "m", "", "", .ok "t", some (some (some 15), "r")⟩).1 = some 10 ∧
    (1 : ℚ) ≤ 10 ∧ (10 : ℚ) ≤ 10 := by
  have hs : (score_response ⟨"s", "m", "", "", .ok "t", some (some (some 15), "r")⟩).1 = some 10 := by
    norm_num [score_response, judge_server, judge_model]
    rw [if_neg (by decide : ¬(("s" : String) = "" ∨ ("m" : String) = "")),
      if_neg (by decide : ¬("t" : String) = "")]
  exact ⟨hs, (c9_quality_score_clamped
    ⟨"s", "m", "", "", .ok "t", some (some (some 15), "r")⟩).2.1 10 hs⟩

/-- Claim C8: the SSE decoder skips lines that strip to empty or to a
comment starting with `:`; a line stripping to `data: [DONE]` emits the
terminal sentinel and consumes no further input (the result does not depend
on the remaining lines); any other `data: ` payload is emitted as a parsed
event when the JSON parser succeeds and is silently skipped, continuing
with the remaining lines, when it fails. -/
theorem c8_sse_decoder {J : Type} (parse : List Char → Option J)
    (line : List Char) (rest : List (List Char)) (p : List Char) (j : J) :
    (pyStrip line = [] → parse_sse_lines parse (line :: rest) = parse_sse_lines parse rest) ∧
    (∀ t, pyStrip line = ':' :: t →
      parse_sse_lines parse (line :: rest) = parse_sse_lines parse rest) ∧
    (pyStrip line = sseData ++ sseDone → parse_sse_lines parse (line :: rest) = [SseOut.done]) ∧
    (pyStrip line = sseData ++ p → p ≠ sseDone → parse p = some j →
      parse_sse_lines parse (line :: rest) = SseOut.event j :: parse_sse_lines parse rest) ∧
    (pyStrip line = sseData ++ p → p ≠ sseDone → parse p = none →
      parse_sse_lines parse (line :: rest) = parse_sse_lines parse rest) := by
  refine ⟨?_, ?_, ?_, ?_, ?_⟩
  · intro h
    simp [parse_sse_lines, h]
  · intro t h
    simp [parse_sse_lines, h, startswith]
  · intro h
    simp [parse_sse_lines, h, startswith, List.take_left, sseData_eq, sse_drop6]
  · intro h hne hj
    simp [parse_sse_lines, h, startswith, List.take_left, sseData_eq, sse_drop6, hne, hj]
  · intro h hne hj
    simp [parse_sse_lines, h, startswith, List.take_left, sseData_eq, sse_drop6, hne, hj]

/-- Claim C8 witness: a concrete stream — a payload line, a keepalive, the
sentinel, and a trailing line that must not be consumed. -/
theorem c8_witness :
    parse_sse_lines (fun q => if q = "x".toList then some 1 else none)
        ["data: x".toList, ": keepalive".toList, "data: [DONE]".toList, "data: y".toList] =
      [SseOut.event 1, SseOut.done] := by
  have h1 := (c8_sse_decoder (fun q => if q = "x".toList then some 1 else none)
      "data: x".toList [": keepalive".toList, "data: [DONE]".toList, "data: y".toList]
      "x".toList 1).2.2.2.1 (by decide) (by decide) (by simp)
  rw [h1]
  have h2 := (c8_sse_decoder (fun q => if q = "x".toList then some 1 else none)
      ": keepalive".toList ["data: [DONE]".toList, "data: y".toList]
      "x".toList 1).2.1 " keepalive".toList (by decide)
  rw [h2]
  have h3 := (c8_sse_decoder (fun q => if q = "x".toList then some 1 else none)
      "data: [DONE]".toList ["data: y".toList] "x".toList 1).2.2.1 (by decide)
  rw [h3]

/-- Claim C2 (counterexample): a primary stream failure does NOT transition
to the Chat-Completions fallback — even when the fallback would succeed and
supply usage, the machine emits the terminal error event directly and never
enters the fallback state. -/
theorem c2_counterexample :
    llama_stream_inference (⟨[], some "boom"⟩ : Attempt Unit)
        ⟨[{ usage := some () }], none⟩ 0 = [OutEvent.error "boom" (pyRound1 0)] ∧
    llama_stream_fell_back (⟨[], some "boom"⟩ : Attempt Unit) = false :=
  ⟨rfl, rfl⟩

/-- Claim C2 (amended): the streaming machine enters the fallback attempt
exactly when the primary attempt completes without exception and without
ever yielding usage; a primary-stream failure emits the terminal error
event directly (the output is the same whatever the fallback would do);
when the fallback runs, its failure emits the terminal error event and its
success emits the terminal complete event. -/
theorem c2_stream_fallback_conditions {U : Type} (prim fb : Attempt U) (elapsed : ℚ) :
    (llama_stream_fell_back prim = true ↔
      prim.err = none ∧ (stream_loop prim.evs).2.2 = none) ∧
    (∀ msg, prim.err = some msg →
      (∀ fb2 : Attempt U, llama_stream_inference prim fb2 elapsed =
        llama_stream_inference prim fb elapsed) ∧
      (llama_stream_inference prim fb elapsed).getLast? =
        some (OutEvent.error msg (pyRound1 elapsed)) ∧
      llama_stream_fell_back prim = false) ∧
    (prim.err = none → (stream_loop prim.evs).2.2 = none →
      llama_stream_fell_back prim = true ∧
      (∀ msg, fb.err = some msg →
        (llama_stream_inference prim fb elapsed).getLast? =
          some (OutEvent.error msg (pyRound1 elapsed))) ∧
      (fb.err = none →
        (llama_stream_inference prim fb elapsed).getLast? =
          some (OutEvent.complete (stream_loop fb.evs).2.1 (stream_loop fb.evs).2.2
            (pyRound1 elapsed)
            (if (stream_loop fb.evs).2.2.isSome then "responses" else "chat_completions")))) := by
  obtain ⟨pevs, perr⟩ := prim
  obtain ⟨fevs, ferr⟩ := fb
  refine ⟨?_, ?_, ?_⟩
  · simp [llama_stream_fell_back, Option.isNone_iff_eq_none]
  · rintro msg hmsg
    simp only at hmsg
    subst hmsg
    refine ⟨fun fb2 => rfl, ?_, ?_⟩
    · simp [llama_stream_inference, List.getLast?_concat]
    · simp [llama_stream_fell_back]
  · rintro hperr hpuf
    simp only at hperr
    subst hperr
    refine ⟨by simp [llama_stream_fell_back, Option.isNone_iff_eq_none, hpuf], ?_, ?_⟩
    · rintro msg hmsg
      simp only at hmsg
      subst hmsg
      simp [llama_stream_inference, hpuf, List.getLast?_concat]
    · rintro hferr
      simp only at hferr
      subst hferr
      simp [llama_stream_inference, hpuf, List.getLast?_concat]

/-- Claim C2 witness: a primary stream that drains without usage does enter
the fallback, and a failing fallback emits the terminal error event. -/
theorem c2_witness :
    llama_stream_fell_back (⟨[{ delta := "a" }], none⟩ : Attempt Unit) = true ∧
    (llama_stream_inference (⟨[{ delta := "a" }], none⟩ : Attempt Unit)
        ⟨[], some "bad"⟩ 3).getLast? = some (OutEvent.error "bad" (pyRound1 3)) := by
  have h := (c2_stream_fallback_conditions (⟨[{ delta := "a" }], none⟩ : Attempt Unit)
      ⟨[], some "bad"⟩ 3).2.2 rfl rfl
  exact ⟨h.1, h.2.1 "bad" rfl⟩

/-- Claim C6: the multi-run reduction returns the single result unchanged
when `numRuns == 1`; with `numRuns > 1` and at least one successful repeat,
the token fields are the means over successful repeats rounded to a
nearest integer (distance at most 1/2), the latency is the mean over
successful repeats rounded to one decimal (distance at most 1/20), and
`response_text`/`api_used` come from the last successful repeat; when all
repeats failed, the first (failing) result is returned verbatim. -/
theorem c6_multi_run_reduction (num_runs : ℕ) (prompt : String)
    (runs : List BenchmarkTestResult) (hlen : runs.length = num_runs) :
    (num_runs = 1 → ∀ h : runs ≠ [],
      run_single_prompt_multi num_runs prompt runs = runs.head h) ∧
    (1 < num_runs → ∀ r, last_successful runs = some r →
      (run_single_prompt_multi num_runs prompt runs).response_text = r.response_text ∧
      (run_single_prompt_multi num_runs prompt runs).api_used = r.api_used ∧
      (run_single_prompt_multi num_runs prompt runs).usage.input_tokens =
        pyRound (listMean ((successful_results runs).map
          (fun s => (s.usage.input_tokens : ℚ)))) ∧
      (run_single_prompt_multi num_runs prompt runs).usage.output_tokens =
        pyRound (listMean ((successful_results runs).map
          (fun s => (s.usage.output_tokens : ℚ)))) ∧
      (run_single_prompt_multi num_runs prompt runs).usage.total_tokens =
        pyRound (listMean ((successful_results runs).map
          (fun s => (s.usage.total_tokens : ℚ)))) ∧
      |((run_single_prompt_multi num_runs prompt runs).usage.total_tokens : ℚ) -
        listMean ((successful_results runs).map (fun s => (s.usage.total_tokens : ℚ)))| ≤ 1/2 ∧
      (run_single_prompt_multi num_runs prompt runs).latency_ms =
        pyRound1 (listMean ((successful_results runs).map (fun s => s.latency_ms))) ∧
      |(run_single_prompt_multi num_runs prompt runs).latency_ms -
        listMean ((successful_results runs).map (fun s => s.latency_ms))| ≤ 1/20 ∧
      (run_single_prompt_multi num_runs prompt runs).error = none) ∧
    (1 < num_runs → last_successful runs = none → ∀ h : runs ≠ [],
      run_single_prompt_multi num_runs prompt runs = runs.head h) := by
  refine ⟨?_, ?_, ?_⟩
  · intro h1 hne
    subst h1
    rw [show run_single_prompt_multi 1 prompt runs = runs.headI by
      simp [run_single_prompt_multi]]
    exact headI_eq_head runs hne
  · intro hn r hr
    have hle : ¬ num_runs ≤ 1 := by omega
    have hsne : ¬ successful_results runs = [] := by
      intro h0
      rw [last_successful_eq, h0] at hr
      simp at hr
    have hlast : (successful_results runs).getLastD default = r := by
      rw [getLastD_eq_getLast?_getD, ← last_successful_eq, hr, Option.getD_some]
    have hmeanI : ((successful_results runs).map (fun s => (s.usage.input_tokens : ℚ))).sum /
        ((successful_results runs).length : ℚ) =
        listMean ((successful_results runs).map (fun s => (s.usage.input_tokens : ℚ))) := by
      simp [listMean]
    have hmeanO : ((successful_results runs).map (fun s => (s.usage.output_tokens : ℚ))).sum /
        ((successful_results runs).length : ℚ) =
        listMean ((successful_results runs).map (fun s => (s.usage.output_tokens : ℚ))) := by
      simp [listMean]
    have hmeanT : ((successful_results runs).map (fun s => (s.usage.total_tokens : ℚ))).sum /
        ((successful_results runs).length : ℚ) =
        listMean ((successful_results runs).map (fun s => (s.usage.total_tokens : ℚ))) := by
      simp [listMean]
    have hmeanL : ((successful_results runs).map (fun s => s.latency_ms)).sum /
        ((successful_results runs).length : ℚ) =
        listMean ((successful_results runs).map (fun s => s.latency_ms)) := by
      simp [listMean]
    have hres : run_single_prompt_multi num_runs prompt runs =
        { prompt := prompt,
          response_text := r.response_text,
          usage := { input_tokens := pyRound (listMean ((successful_results runs).map
                       (fun s => (s.usage.input_tokens : ℚ)))),
                     output_tokens := pyRound (listMean ((successful_results runs).map
                       (fun s => (s.usage.output_tokens : ℚ)))),
                     total_tokens := pyRound (listMean ((successful_results runs).map
                       (fun s => (s.usage.total_tokens : ℚ)))) },
          latency_ms := pyRound1 (listMean ((successful_results runs).map
            (fun s => s.latency_ms))),
          api_used := r.api_used } := by
      simp only [run_single_prompt_multi, if_neg hle, if_neg hsne, hlast,
        hmeanI, hmeanO, hmeanT, hmeanL]
    rw [hres]
    exact ⟨rfl, rfl, rfl, rfl, rfl, pyRound_nearest _, rfl, pyRound1_nearest _, rfl⟩
  · intro hn hr hne
    have hle : ¬ num_runs ≤ 1 := by omega
    have hse : successful_results runs = [] := by
      rw [last_successful_eq, List.getLast?_eq_none_iff] at hr
      exact hr
    rw [show run_single_prompt_multi num_runs prompt runs = runs.headI by
      simp [run_single_prompt_multi, if_neg hle, hse]]
    exact headI_eq_head runs hne

/-- Claim C6 witness: the spec's worked example — three successful repeats
with token totals 100/110/120 and latencies 50/60/70 reduce to total 110,
latency 60.0, and the third repeat's `response_text` and `api_used`. -/
theorem c6_witness :
    (run_single_prompt_multi 3 "p"
        [{ prompt := "p", response_text := "first", usage := ⟨0, 0, 100⟩, latency_ms := 50,
           api_used := "responses" },
         { prompt := "p", response_text := "second", usage := ⟨0, 0, 110⟩, latency_ms := 60,
           api_used := "responses" },
         { prompt := "p", response_text := "third", usage := ⟨0, 0, 120⟩, latency_ms := 70,
           api_used := "responses" }]).response_text = "third" ∧
    (run_single_prompt_multi 3 "p"
        [{ prompt := "p", response_text := "first", usage := ⟨0, 0, 100⟩, latency_ms := 50,
           api_used := "responses" },
         { prompt := "p", response_text := "second", usage := ⟨0, 0, 110⟩, latency_ms := 60,
           api_used := "responses" },
         { prompt := "p", response_text := "third", usage := ⟨0, 0, 120⟩, latency_ms := 70,
           api_used := "responses" }]).usage.total_tokens = 110 ∧
    (run_single_prompt_multi 3 "p"
        [{ prompt := "p", response_text := "first", usage := ⟨0, 0, 100⟩, latency_ms := 50,
           api_used := "responses" },
         { prompt := "p", response_text := "second", usage := ⟨0, 0, 110⟩, latency_ms := 60,
           api_used := "responses" },
         { prompt := "p", response_text := "third", usage := ⟨0, 0, 120⟩, latency_ms := 70,
           api_used := "responses" }]).latency_ms = 60 := by
  have h := (c6_multi_run_reduction 3 "p"
      [{ prompt := "p", response_text := "first", usage := ⟨0, 0, 100⟩, latency_ms := 50,
         api_used := "responses" },
       { prompt := "p", response_text := "second", usage := ⟨0, 0, 110⟩, latency_ms := 60,
         api_used := "responses" },
       { prompt := "p", response_text := "third", usage := ⟨0, 0, 120⟩, latency_ms := 70,
         api_used := "responses" }] rfl).2.1 (by norm_num)
      { prompt := "p", response_text := "third", usage := ⟨0, 0, 120⟩, latency_ms := 70,
        api_used := "responses" } rfl
  refine ⟨h.1, ?_, ?_⟩
  · rw [h.2.2.2.2.1]
    norm_num [successful_results, listMean, List.filter, pyRound]
  · rw [h.2.2.2.2.2.2.1]
    norm_num [successful_results, listMean, List.filter, pyRound1, pyRound]

/-- Claim C10: with more than one repeat, at least one success and at
least one failure, the reduced result has `error = None`, and the whole
reduced result is determined by the successful repeats alone — any run
list with the same successful repeats reduces to the same result. -/
theorem c10_failed_repeats_leave_no_trace (num_runs : ℕ) (prompt : String)
    (runs : List BenchmarkTestResult) (hn : 1 < num_runs)
    (hs : ∃ r ∈ runs, r.error = none) (hf : ∃ r ∈ runs, r.error ≠ none) :
    (run_single_prompt_multi num_runs prompt runs).error = none ∧
    (∀ (m : ℕ) (runs2 : List BenchmarkTestResult), 1 < m →
      successful_results runs2 = successful_results runs →
      run_single_prompt_multi m prompt runs2 = run_single_prompt_multi num_runs prompt runs) := by
  have hle : ¬ num_runs ≤ 1 := by omega
  have hsne : ¬ successful_results runs = [] := by
    obtain ⟨r, hrmem, hrnone⟩ := hs
    intro h0
    have hmem : r ∈ successful_results runs := by
      simp [successful_results, List.mem_filter, hrmem, hrnone]
    rw [h0] at hmem
    exact absurd hmem (List.not_mem_nil r)
  constructor
  · simp [run_single_prompt_multi, if_neg hle, if_neg hsne]
  · intro m runs2 hm heq
    have hle2 : ¬ m ≤ 1 := by omega
    have hsne2 : ¬ successful_results runs2 = [] := by rw [heq]; exact hsne
    simp only [run_single_prompt_multi, if_neg hle, if_neg hle2, if_neg hsne, if_neg hsne2, heq]

/-- Claim C10 witness: one successful and one failed repeat reduce to a
result with no error recorded. -/
theorem c10_witness :
    (run_single_prompt_multi 2 "p"
        [{ prompt := "p" }, { prompt := "p", error := some "x" }]).error = none :=
  (c10_failed_repeats_leave_no_trace 2 "p"
      [{ prompt := "p" }, { prompt := "p", error := some "x" }] (by norm_num)
      ⟨{ prompt := "p" }, by simp, rfl⟩
      ⟨{ prompt := "p", error := some "x" }, by simp, by simp⟩).1

end Tokens
